import Mathlib

/-
Verification of the backtesting / risk-management / indicator core of the
trading-api repository, as a shallow embedding in Lean 4.

Numbers are embedded as exact rationals (`ℚ`).  Where the JavaScript source
can produce the IEEE special values `Infinity` / `-Infinity` / `NaN`
(divisions whose divisor may be zero), the embedding uses the type `JsNum`
below, whose arithmetic follows the IEEE rules for those values.  Negative
zero is not modelled (no code path distinguishes it).  Rounding of IEEE
doubles is not modelled; all claims under study depend on exact zero tests
and branch structure, not on rounding.
-/

/-- Model of a JavaScript number: either a finite value (an exact rational)
or one of the IEEE special values produced by division by zero. -/
inductive JsNum where
  | num : ℚ → JsNum
  | inf : JsNum
  | negInf : JsNum
  | nan : JsNum
deriving DecidableEq, Repr

namespace JsNum

/-- JavaScript division, including the IEEE rules for zero divisors and
special operands. -/
def jsDiv : JsNum → JsNum → JsNum
  | num a, num b =>
      if b = 0 then (if 0 < a then inf else if a < 0 then negInf else nan)
      else num (a / b)
  | num _, inf => num 0
  | num _, negInf => num 0
  | inf, num b => if 0 ≤ b then inf else negInf
  | negInf, num b => if 0 ≤ b then negInf else inf
  | inf, inf => nan
  | inf, negInf => nan
  | negInf, inf => nan
  | negInf, negInf => nan
  | nan, _ => nan
  | _, nan => nan

/-- JavaScript addition on possibly-special numbers. -/
def jsAdd : JsNum → JsNum → JsNum
  | num a, num b => num (a + b)
  | num _, inf => inf
  | num _, negInf => negInf
  | inf, num _ => inf
  | negInf, num _ => negInf
  | inf, inf => inf
  | negInf, negInf => negInf
  | inf, negInf => nan
  | negInf, inf => nan
  | nan, _ => nan
  | _, nan => nan

/-- JavaScript subtraction on possibly-special numbers. -/
def jsSub : JsNum → JsNum → JsNum
  | num a, num b => num (a - b)
  | num _, inf => negInf
  | num _, negInf => inf
  | inf, num _ => inf
  | negInf, num _ => negInf
  | inf, negInf => inf
  | negInf, inf => negInf
  | inf, inf => nan
  | negInf, negInf => nan
  | nan, _ => nan
  | _, nan => nan

/-- JavaScript multiplication on possibly-special numbers. -/
def jsMul : JsNum → JsNum → JsNum
  | num a, num b => num (a * b)
  | num a, inf => if 0 < a then inf else if a < 0 then negInf else nan
  | num a, negInf => if 0 < a then negInf else if a < 0 then inf else nan
  | inf, num b => if 0 < b then inf else if b < 0 then negInf else nan
  | negInf, num b => if 0 < b then negInf else if b < 0 then inf else nan
  | inf, inf => inf
  | negInf, negInf => inf
  | inf, negInf => negInf
  | negInf, inf => negInf
  | nan, _ => nan
  | _, nan => nan

/-- JavaScript strict less-than: any comparison involving NaN is false. -/
def jsLt : JsNum → JsNum → Bool
  | num a, num b => a < b
  | num _, inf => true
  | num _, negInf => false
  | inf, num _ => false
  | negInf, num _ => true
  | negInf, inf => true
  | inf, negInf => false
  | inf, inf => false
  | negInf, negInf => false
  | nan, _ => false
  | _, nan => false

end JsNum

/-
Embedding of src/server/services/riskManagement.ts.
-/
namespace RiskManagement

/-- The `Position` interface of riskManagement.ts. -/
structure Position where
  symbol : String
  entry_price : ℚ
  current_price : ℚ
  stop_loss : ℚ
  take_profit : ℚ
  size : ℚ
  unrealized_pl : ℚ
  risk_percentage : ℚ
deriving DecidableEq, Repr

/-- The `RiskParameters` interface of riskManagement.ts. -/
structure RiskParameters where
  accountBalance : ℚ
  riskPercentage : ℚ
  entry_price : ℚ
  stop_loss : ℚ
  take_profit : ℚ
deriving DecidableEq, Repr

/-- Result record of `validateNewPosition` / `validateStopLossModification`.
The reason strings keep the fixed text of the source; interpolated numeric
values inside the later messages are elided (no claim inspects them). -/
structure ValidationResult where
  isValid : Bool
  reason : Option String
deriving DecidableEq, Repr

/-- Result record of `calculatePositionSize`. -/
structure PositionSizeResult where
  size : ℤ
  riskAmount : ℚ
  maxRiskAmount : ℚ
  riskRewardRatio : ℚ
deriving DecidableEq, Repr

def MIN_RISK_PERCENTAGE : ℚ := 1/2

def MAX_RISK_PERCENTAGE : ℚ := 2

def MAX_TOTAL_RISK_PERCENTAGE : ℚ := 6

/-- Embedding of `validateRiskPercentage` of riskManagement.ts. -/
def validateRiskPercentage (riskPercentage : ℚ) : Bool :=
  MIN_RISK_PERCENTAGE ≤ riskPercentage && riskPercentage ≤ MAX_RISK_PERCENTAGE

/-- Embedding of `calculateTotalRisk` of riskManagement.ts: sum of the open positions'
risk percentages. -/
def calculateTotalRisk (positions : List Position) : ℚ :=
  positions.foldl (fun total position => total + position.risk_percentage) 0

/-- Embedding of `calculatePositionSize` of riskManagement.ts.  The two `throw`
statements of the source become `Except.error`. -/
def calculatePositionSize (params : RiskParameters) :
    Except String PositionSizeResult :=
  if !validateRiskPercentage params.riskPercentage then
    .error "Invalid risk percentage"
  else
    let riskAmount := params.accountBalance * params.riskPercentage / 100
    let maxRiskAmount := params.accountBalance * MAX_RISK_PERCENTAGE / 100
    let riskPerShare := |params.entry_price - params.stop_loss|
    if riskPerShare = 0 then
      .error "Invalid stop loss: Must be different from entry price"
    else
      let size := ⌊riskAmount / riskPerShare⌋
      let reward := |params.take_profit - params.entry_price|
      let riskRewardRatio := reward / riskPerShare
      .ok ⟨size, riskAmount, maxRiskAmount, riskRewardRatio⟩

/-- Embedding of `validateNewPosition` of riskManagement.ts.  The risk-reward ratio is
computed with JavaScript division semantics (`JsNum`), since the source
divides without guarding against a zero risk-per-share. -/
def validateNewPosition (params : RiskParameters)
    (openPositions : List Position) : ValidationResult :=
  if 3 ≤ openPositions.length then
    ⟨false, some "Maximum number of positions (3) reached"⟩
  else if !validateRiskPercentage params.riskPercentage then
    ⟨false, some "Risk percentage outside allowed range"⟩
  else
    let currentTotalRisk := calculateTotalRisk openPositions
    let totalRisk := currentTotalRisk + params.riskPercentage
    if MAX_TOTAL_RISK_PERCENTAGE < totalRisk then
      ⟨false, some "Total risk would exceed maximum"⟩
    else
      let riskPerShare := |params.entry_price - params.stop_loss|
      let rewardPerShare := |params.take_profit - params.entry_price|
      let riskRewardRatio := JsNum.jsDiv (.num rewardPerShare) (.num riskPerShare)
      if JsNum.jsLt riskRewardRatio (.num 1) then
        ⟨false, some "Risk-reward ratio below minimum 1.0"⟩
      else if JsNum.jsLt (.num 4) riskRewardRatio then
        ⟨false, some "Risk-reward ratio above maximum 4.0"⟩
      else
        ⟨true, none⟩

end RiskManagement

/-
Embedding of the indicator library (the repository's utils/indicators module:
`calculateEMA`, `calculateRSI`, `findPivotPoints`).
-/
namespace Indicators

/-- Inner loop of `calculateEMA`: given the running EMA value `prev`, emit
`data[i] * k + prev * (1 - k)` for each remaining element. -/
def emaGo (k : ℚ) (prev : ℚ) : List ℚ → List ℚ
  | [] => []
  | x :: xs =>
      let e := x * k + prev * (1 - k)
      e :: emaGo k e xs

/-- Embedding of `calculateEMA(data, period)`: smoothing factor `k = 2 / (period + 1)`,
seeded with `data[0]`; the seed itself is the first output.  An empty input
yields an empty output (the source's loop body never runs). -/
def calculateEMA (data : List ℚ) (period : ℕ) : List ℚ :=
  match data with
  | [] => []
  | x :: xs => x :: emaGo (2 / (period + 1)) x xs

/-- The `changes` array of `calculateRSI`: element 0 is 0, element `i` is
`data[i] - data[i-1]`. -/
def changesOf (data : List ℚ) : List ℚ :=
  match data with
  | [] => []
  | _ :: xs => 0 :: List.zipWith (fun a b => a - b) xs data

/-- The `gains` array of `calculateRSI`. -/
def gainsOf (data : List ℚ) : List ℚ :=
  (changesOf data).map (fun change => if 0 < change then change else 0)

/-- The `losses` array of `calculateRSI`. -/
def lossesOf (data : List ℚ) : List ℚ :=
  (changesOf data).map (fun change => if change < 0 then -change else 0)

/-- Seed average gain: mean of `gains[1 .. period]` (the source's
`gains.slice(1, period + 1)`). -/
def seedAvgGain (data : List ℚ) (period : ℕ) : ℚ :=
  (((gainsOf data).drop 1).take period).sum / period

/-- Seed average loss: mean of `losses[1 .. period]`. -/
def seedAvgLoss (data : List ℚ) (period : ℕ) : ℚ :=
  (((lossesOf data).drop 1).take period).sum / period

/-- One RSI output value from the running averages:
`100 - 100 / (1 + avgGain / avgLoss)`, with JavaScript division semantics
(a zero average loss produces `Infinity` or `NaN`, not an exception). -/
def rsiVal (avgGain avgLoss : ℚ) : JsNum :=
  JsNum.jsSub (.num 100)
    (JsNum.jsDiv (.num 100)
      (JsNum.jsAdd (.num 1) (JsNum.jsDiv (.num avgGain) (.num avgLoss))))

/-- Main loop of `calculateRSI` over the bar indices `period … len - 1`:
for `i > period` the averages are Wilder-smoothed before the value for
index `i` is emitted. -/
def rsiLoop (gains losses : List ℚ) (period : ℕ)
    (avgGain avgLoss : ℚ) : List ℕ → List JsNum
  | [] => []
  | i :: rest =>
      let avgGain1 :=
        if period < i then (avgGain * ((period : ℚ) - 1) + gains.getD i 0) / period
        else avgGain
      let avgLoss1 :=
        if period < i then (avgLoss * ((period : ℚ) - 1) + losses.getD i 0) / period
        else avgLoss
      rsiVal avgGain1 avgLoss1 :: rsiLoop gains losses period avgGain1 avgLoss1 rest

/-- Embedding of `calculateRSI(data, period)` of the indicator library: one value per
index from `period` to `data.length - 1`.  The source's divisions by
`period` are exact here; every theorem below assumes `period ≥ 1`, so the
rational convention `x / 0 = 0` is never exercised. -/
def calculateRSI (data : List ℚ) (period : ℕ) : List JsNum :=
  rsiLoop (gainsOf data) (lossesOf data) period
    (seedAvgGain data period) (seedAvgLoss data period)
    (List.range' period (data.length - period))

/-- The bar records consumed by `findPivotPoints` ({high, low, close}). -/
structure PBar where
  high : ℚ
  low : ℚ
  close : ℚ
deriving DecidableEq, Repr

/-- Out-of-range default bar (list indexing never reaches it for the pivot
indices actually scanned, which keep the full window in range). -/
def pb0 : PBar := ⟨0, 0, 0⟩

/-- The fixed `lookback` of `findPivotPoints`. -/
def lookback : ℕ := 5

/-- Inner loop of the pivot-high check at index `i` (assumes
`lookback ≤ i`): `i` passes iff no `j ≠ i` in the centered window has a
strictly greater high. -/
def isHighPivot (data : List PBar) (i : ℕ) : Bool :=
  ((List.range (2 * lookback + 1)).map (fun o => i - lookback + o)).all
    (fun j => j = i || !((data.getD i pb0).high < (data.getD j pb0).high))

/-- Inner loop of the pivot-low check at index `i`. -/
def isLowPivot (data : List PBar) (i : ℕ) : Bool :=
  ((List.range (2 * lookback + 1)).map (fun o => i - lookback + o)).all
    (fun j => j = i || !((data.getD j pb0).low < (data.getD i pb0).low))

/-- Embedding of `findPivotPoints(data)`: scans indices `lookback … len - lookback - 1`
and collects the qualifying highs and lows in scan order. -/
def findPivotPoints (data : List PBar) : List ℚ × List ℚ :=
  let idxs := List.range' lookback (data.length - 2 * lookback)
  ((idxs.filter (isHighPivot data)).map (fun i => (data.getD i pb0).high),
   (idxs.filter (isLowPivot data)).map (fun i => (data.getD i pb0).low))

end Indicators

/-
Embedding of src/server/services/backtesting.ts (the engine driving the
simulated run).  External collaborators are modelled at their call
boundaries: the historical bars are a parameter, and the per-bar AI
analysis (chart generation + aiAnalysis.analyzeChart) is an oracle
`ℕ → Option Analysis`, `none` standing for a collaborator failure caught
by the source's try/catch (the bar is then skipped for new entries).
Chart images, the analysis-history list and the string metadata fields of
the result (symbol, timeframe, dates) play no role in any claim and are
not carried in the result record.
-/
namespace Backtesting

inductive Side where
  | long : Side
  | short : Side
deriving DecidableEq, Repr

/-- One OHLCV bar; timestamps are naturals (millisecond epoch order is all
the source uses). -/
structure Bar where
  timestamp : ℕ
  openPrice : ℚ
  high : ℚ
  low : ℚ
  close : ℚ
  volume : ℚ
deriving DecidableEq, Repr

/-- Out-of-range default bar (the loop only indexes in range). -/
def bar0 : Bar := ⟨0, 0, 0, 0, 0, 0⟩

/-- The `Position` interface of backtesting.ts.  `pnl_percentage` is a
`JsNum` because `closeAllPositions` divides by a balance of 0. -/
structure Position where
  symbol : String
  side : Side
  entry_price : ℚ
  stop_loss : ℚ
  take_profit : ℚ
  size : ℚ
  entry_time : ℕ
  exit_time : Option ℕ := none
  exit_price : Option ℚ := none
  pnl : Option ℚ := none
  pnl_percentage : Option JsNum := none
  reason : Option String := none
deriving DecidableEq, Repr

/-- Embedding of `closePosition`: records exit price/time/reason and computes the pnl
from the side, as in the source (which mutates the position in place). -/
def closePosition (position : Position) (exitPrice : ℚ) (exitTime : ℕ)
    (reason : String) (balance : ℚ) : Position :=
  let pnl :=
    match position.side with
    | .long => (exitPrice - position.entry_price) * position.size
    | .short => (position.entry_price - exitPrice) * position.size
  { position with
    exit_price := some exitPrice
    exit_time := some exitTime
    reason := some reason
    pnl := some pnl
    pnl_percentage :=
      some (JsNum.jsMul (JsNum.jsDiv (.num pnl) (.num balance)) (.num 100)) }

/-- The stop-loss block of `updateOpenPositions`: closes the position at
the stop-loss price when the bar reaches it. -/
def checkStopLoss (position : Position) (currentBar : Bar) (balance : ℚ) :
    Position :=
  if position.side = .long ∧ currentBar.low ≤ position.stop_loss then
    closePosition position position.stop_loss currentBar.timestamp "stop_loss" balance
  else if position.side = .short ∧ position.stop_loss ≤ currentBar.high then
    closePosition position position.stop_loss currentBar.timestamp "stop_loss" balance
  else position

/-- The take-profit block of `updateOpenPositions`.  As in the source, the
condition does not test whether the position was already closed by the
stop-loss block on the same bar; when it fires it overwrites the exit. -/
def checkTakeProfit (position : Position) (currentBar : Bar) (balance : ℚ) :
    Position :=
  if position.side = .long ∧ position.take_profit ≤ currentBar.high then
    closePosition position position.take_profit currentBar.timestamp "take_profit" balance
  else if position.side = .short ∧ currentBar.low ≤ position.take_profit then
    closePosition position position.take_profit currentBar.timestamp "take_profit" balance
  else position

/-- Embedding of `updateOpenPositions`: runs both exit blocks on every position, then
splices out every position that now has an exit time. -/
def updateOpenPositions (positions : List Position) (currentBar : Bar)
    (balance : ℚ) : List Position :=
  (positions.map (fun position =>
      checkTakeProfit (checkStopLoss position currentBar balance) currentBar balance)).filter
    (fun p => p.exit_time.isNone)

/-- The `analysis.recommendation` record consumed by the engine; optional
fields model possibly-absent JavaScript values. -/
structure Recommendation where
  action : String
  entry_price : Option ℚ
  stop_loss : Option ℚ
  take_profit : Option ℚ
  risk_percentage : Option ℚ
deriving DecidableEq, Repr

/-- The slice of the AI analysis result the engine reads. -/
structure Analysis where
  confidence : ℚ
  recommendation : Recommendation
deriving DecidableEq, Repr

/-- JavaScript truthiness of an optional numeric field (`undefined` and `0`
are falsy). -/
def truthy : Option ℚ → Bool
  | none => false
  | some v => v ≠ 0

/-- Embedding of `executePosition` of backtesting.ts.  Note the source computes
`riskAmount = balance * (risk_percentage || riskPerTrade)` — without
dividing the percentage by 100 — and does not consult the Risk Manager.
When the entry equals the stop the source's size would be `Infinity`; the
model uses 0 there, a case no theorem exercises. -/
def executePosition (symbol : String) (analysis : Analysis) (currentBar : Bar)
    (balance riskPerTrade : ℚ) : Option Position :=
  let r := analysis.recommendation
  if truthy r.entry_price && truthy r.stop_loss && truthy r.take_profit then
    let entry_price := r.entry_price.getD 0
    let stop_loss := r.stop_loss.getD 0
    let take_profit := r.take_profit.getD 0
    let riskAmount :=
      balance * (if truthy r.risk_percentage then r.risk_percentage.getD 0 else riskPerTrade)
    let riskPerShare := |entry_price - stop_loss|
    let positionSize : ℚ :=
      if riskPerShare = 0 then 0 else ((⌊riskAmount / riskPerShare⌋ : ℤ) : ℚ)
    some
      { symbol := symbol
        side := if r.action = "buy" then .long else .short
        entry_price := entry_price
        stop_loss := stop_loss
        take_profit := take_profit
        size := positionSize
        entry_time := currentBar.timestamp }
  else none

/-- Embedding of `calculateCurrentBalance`: adds the recorded pnl (0 when absent) of
every position still in the array to the running balance. -/
def calculateCurrentBalance (balance : ℚ) (positions : List Position) : ℚ :=
  positions.foldl (fun acc pos => acc + pos.pnl.getD 0) balance

/-- Embedding of `closedPositions` of `calculateStatistics`: positions with an exit
price. -/
def closedPositions (positions : List Position) : List Position :=
  positions.filter (fun p => p.exit_price.isSome)

/-- Winning trades: closed positions with positive pnl. -/
def winningTrades (positions : List Position) : List Position :=
  (closedPositions positions).filter (fun p => 0 < p.pnl.getD 0)

/-- Losing trades: closed positions with non-positive pnl. -/
def losingTrades (positions : List Position) : List Position :=
  (closedPositions positions).filter (fun p => p.pnl.getD 0 ≤ 0)

/-- Sum of winning pnl. -/
def totalWins (positions : List Position) : ℚ :=
  (winningTrades positions).foldl (fun sum trade => sum + trade.pnl.getD 0) 0

/-- Absolute value of the summed losing pnl. -/
def totalLosses (positions : List Position) : ℚ :=
  |(losingTrades positions).foldl (fun sum trade => sum + trade.pnl.getD 0) 0|

/-- The max-drawdown scan of `calculateStatistics` over the equity curve
(running peak; maximum of peak − balance, with the percentage taken at the
maximising point).  The division by `peak` is exact rational division; all
uses in this development keep the peak positive. -/
def drawdownStats (initialBalance : ℚ) (equityCurve : List (ℕ × ℚ)) : ℚ × ℚ :=
  let st := equityCurve.foldl
    (fun (acc : ℚ × ℚ × ℚ) point =>
      let peak := if acc.1 < point.2 then point.2 else acc.1
      let drawdown := peak - point.2
      let drawdownPercentage := drawdown / peak * 100
      if acc.2.1 < drawdown then (peak, drawdown, drawdownPercentage)
      else (peak, acc.2.1, acc.2.2))
    (initialBalance, 0, 0)
  (st.2.1, st.2.2)

/-- The statistics record assembled at Finalizing.  `win_rate` and
`profit_factor` are `JsNum` because the backtesting.ts variant divides by
a possibly-zero trade count and the part_007 variant uses the `Infinity`
sentinel. -/
structure Stats where
  total_trades : ℕ
  winning_trades : ℕ
  losing_trades : ℕ
  win_rate : JsNum
  average_win : ℚ
  average_loss : ℚ
  profit_factor : JsNum
  max_drawdown : ℚ
  max_drawdown_percentage : ℚ
deriving DecidableEq, Repr

/-- Embedding of `calculateStatistics` of src/server/services/backtesting.ts:
`win_rate = winningTrades.length / closedPositions.length` (JavaScript
division, NaN on 0/0) and
`profit_factor = totalLosses > 0 ? totalWins / totalLosses : totalWins`. -/
def calculateStatistics (positions : List Position)
    (initialBalance finalBalance : ℚ) (equityCurve : List (ℕ × ℚ)) : Stats :=
  let closedPs := closedPositions positions
  let wins := winningTrades positions
  let losses := losingTrades positions
  let tw := totalWins positions
  let tl := totalLosses positions
  let dd := drawdownStats initialBalance equityCurve
  { total_trades := closedPs.length
    winning_trades := wins.length
    losing_trades := losses.length
    win_rate := JsNum.jsDiv (.num wins.length) (.num closedPs.length)
    average_win := if 0 < wins.length then tw / wins.length else 0
    average_loss := if 0 < losses.length then tl / losses.length else 0
    profit_factor := if 0 < tl then .num (tw / tl) else .num tw
    max_drawdown := dd.1
    max_drawdown_percentage := dd.2 }

/-- Embedding of `closeAllPositions`: force-closes every position without an exit at the
last bar's close, reason `end_of_backtest`, with a balance argument of 0
(as in the source). -/
def closeAllPositions (positions : List Position) (lastBar : Bar) :
    List Position :=
  positions.map (fun position =>
    if position.exit_time.isNone then
      closePosition position lastBar.close lastBar.timestamp "end_of_backtest" 0
    else position)

/-- Mutable per-run simulation context: open positions, running balance,
equity curve (timestamp, balance pairs). -/
structure SimState where
  positions : List Position
  balance : ℚ
  equityCurve : List (ℕ × ℚ)
deriving DecidableEq, Repr

/-- One iteration of the bar loop of `runBacktest` (index `j`): update the
open positions, possibly open a new one from the oracle's recommendation,
recompute the balance, append the equity point.  The source's batching
only paces external calls; the indices are visited in the same order. -/
def stepBar (symbol : String) (riskPerTrade : ℚ) (bars : List Bar)
    (oracle : ℕ → Option Analysis) (st : SimState) (j : ℕ) : SimState :=
  let currentBar := bars.getD j bar0
  let positions := updateOpenPositions st.positions currentBar st.balance
  let positions :=
    match oracle j with
    | none => positions
    | some analysis =>
        if positions.length < 3 ∧ analysis.recommendation.action ≠ "hold" ∧
            75 ≤ analysis.confidence then
          match executePosition symbol analysis currentBar st.balance riskPerTrade with
          | some position => positions ++ [position]
          | none => positions
        else positions
  let balance := calculateCurrentBalance st.balance positions
  ⟨positions, balance, st.equityCurve ++ [(currentBar.timestamp, balance)]⟩

/-- The result record of a run (fields relevant to the claims). -/
structure BacktestResult where
  initial_balance : ℚ
  final_balance : ℚ
  stats : Stats
  trades : List Position
  equity_curve : List (ℕ × ℚ)
deriving DecidableEq, Repr

/-- Embedding of `runBacktest` of src/server/services/backtesting.ts: date and
data-sufficiency guards, the bar loop from the warm-up offset 60, the
forced close of surviving positions, and the final statistics. -/
def runBacktest (symbol : String) (startDate endDate : ℕ) (bars : List Bar)
    (initialBalance riskPerTrade : ℚ) (oracle : ℕ → Option Analysis) :
    Except String BacktestResult :=
  if endDate < startDate then
    .error "Start date must be before end date"
  else if bars.length < 60 then
    .error "Insufficient historical data"
  else
    let st := (List.range' 60 (bars.length - 60)).foldl
      (stepBar symbol riskPerTrade bars oracle) ⟨[], initialBalance, []⟩
    let positions := closeAllPositions st.positions (bars.getD (bars.length - 1) bar0)
    let stats := calculateStatistics positions initialBalance st.balance st.equityCurve
    .ok ⟨initialBalance, st.balance, stats, positions, st.equityCurve⟩

end Backtesting

/-
Embedding of the `calculateStatistics` of the second engine variant
(src/unnamed/part_007).  Its trade bookkeeping is identical to
backtesting.ts; only the `win_rate` divisor (`closedPositions.length || 1`)
and the `profit_factor` sentinel branch differ.
-/
namespace BacktestingAlt

open Backtesting in
/-- Embedding of `calculateStatistics` of part_007:
`win_rate = winningTrades.length / (closedPositions.length || 1)` and
`profit_factor = totalLosses > 0 ? totalWins / totalLosses
               : totalWins > 0 ? Infinity : 0`. -/
def calculateStatistics (positions : List Backtesting.Position)
    (initialBalance finalBalance : ℚ) (equityCurve : List (ℕ × ℚ)) :
    Backtesting.Stats :=
  let closedPs := closedPositions positions
  let wins := winningTrades positions
  let losses := losingTrades positions
  let tw := totalWins positions
  let tl := totalLosses positions
  let dd := drawdownStats initialBalance equityCurve
  { total_trades := closedPs.length
    winning_trades := wins.length
    losing_trades := losses.length
    win_rate :=
      .num ((wins.length : ℚ) / (if closedPs.length = 0 then 1 else (closedPs.length : ℚ)))
    average_win := if 0 < wins.length then tw / wins.length else 0
    average_loss := if 0 < losses.length then tl / losses.length else 0
    profit_factor :=
      if 0 < tl then .num (tw / tl) else if 0 < tw then .inf else .num 0
    max_drawdown := dd.1
    max_drawdown_percentage := dd.2 }

end BacktestingAlt


/-
Concrete inputs used by counterexamples and witnesses.
-/

/-- A concrete open risk-management position (used to fill a 3-element
open-position list). -/
def rp3 : RiskManagement.Position := ⟨"AAPL", 100, 101, 95, 110, 10, 10, 1⟩

/-- A concrete closed winning trade: one take-profit exit with pnl 3000. -/
def cWin : Backtesting.Position :=
  { symbol := "AAPL", side := .long, entry_price := 100, stop_loss := 95
    take_profit := 115, size := 200, entry_time := 0
    exit_time := some 5, exit_price := some 115, pnl := some 3000
    pnl_percentage := some (.num 3), reason := some "take_profit" }

/-- A concrete open long position whose stop-loss and take-profit can both
trigger on `barBoth`. -/
def pBoth : Backtesting.Position :=
  { symbol := "AAPL", side := .long, entry_price := 100, stop_loss := 95
    take_profit := 115, size := 200, entry_time := 0 }

/-- A bar whose low reaches `pBoth`'s stop-loss and whose high reaches its
take-profit. -/
def barBoth : Backtesting.Bar := ⟨10, 100, 116, 94, 100, 1000⟩

/-- The analysis the oracle returns for the size-mismatch input: buy at
150, stop 145, target 165, risk percentage 1, confidence 80. -/
def recC3 : Backtesting.Analysis := ⟨80, ⟨"buy", some 150, some 145, some 165, some 1⟩⟩

/-- Claim C6: with 3 or more open positions, `validateNewPosition` is
invalid with the fixed reason string, which starts with the phrase
"Maximum number of positions" — regardless of the parameters. -/
theorem validateNewPosition_maxPositions (params : RiskManagement.RiskParameters)
    (openPositions : List RiskManagement.Position)
    (h : 3 ≤ openPositions.length) :
    RiskManagement.validateNewPosition params openPositions =
      ⟨false, some "Maximum number of positions (3) reached"⟩ ∧
    "Maximum number of positions (3) reached" =
      "Maximum number of positions" ++ " (3) reached" := by
  constructor
  · simp [RiskManagement.validateNewPosition, h]
  · rfl

/-- Witness for C6: the rejection at a concrete parameter set and a
concrete 3-element open-position list. -/
theorem validateNewPosition_maxPositions_witness :
    RiskManagement.validateNewPosition ⟨100000, 1, 150, 145, 165⟩ [rp3, rp3, rp3] =
      ⟨false, some "Maximum number of positions (3) reached"⟩ ∧
    "Maximum number of positions (3) reached" =
      "Maximum number of positions" ++ " (3) reached" :=
  validateNewPosition_maxPositions ⟨100000, 1, 150, 145, 165⟩ [rp3, rp3, rp3] (by simp)

/-- Counterexample to claim C5 as stated: on the backtesting.ts variant of
`calculateStatistics`, a run with zero closed trades computes
`win_rate = 0 / 0`, which is NaN under JavaScript division — not 0. -/
theorem winRate_zero_trades_nan :
    (Backtesting.calculateStatistics [] 100000 100000 []).win_rate = JsNum.nan ∧
    JsNum.nan ≠ JsNum.num 0 := by
  constructor
  · simp [Backtesting.calculateStatistics, Backtesting.closedPositions,
      Backtesting.winningTrades, Backtesting.losingTrades, JsNum.jsDiv]
  · simp

/-- Claim C5 amended: the part_007 variant of `calculateStatistics` never
divides by zero — with zero closed trades the divisor is replaced by 1 and
`win_rate = 0`; with at least one closed trade
`win_rate = winning_trades / total_trades`. -/
theorem altCalculateStatistics_winRate (positions : List Backtesting.Position)
    (initialBalance finalBalance : ℚ) (equityCurve : List (ℕ × ℚ)) :
    (BacktestingAlt.calculateStatistics positions initialBalance finalBalance
        equityCurve).win_rate =
      .num (if (Backtesting.closedPositions positions).length = 0 then 0
        else ((Backtesting.winningTrades positions).length : ℚ) /
          ((Backtesting.closedPositions positions).length : ℚ)) := by
  unfold BacktestingAlt.calculateStatistics
  by_cases h : (Backtesting.closedPositions positions).length = 0
  · have hw : (Backtesting.winningTrades positions).length = 0 := by
      have h2 := List.length_filter_le
        (fun p => decide (0 < p.pnl.getD 0)) (Backtesting.closedPositions positions)
      simp only [Backtesting.winningTrades]
      omega
    simp [h, hw]
  · simp [h]

/-- Counterexample to claim C4 as stated: on the backtesting.ts variant of
`calculateStatistics`, a closed-trade set with total losses 0 and total
wins 3000 yields `profit_factor = 3000` (the raw total wins), an ordinary
finite number — not the +∞ sentinel. -/
theorem profitFactor_no_sentinel :
    Backtesting.totalLosses [cWin] = 0 ∧
    Backtesting.totalWins [cWin] = 3000 ∧
    (Backtesting.calculateStatistics [cWin] 100000 103000 []).profit_factor =
      JsNum.num 3000 ∧
    JsNum.num 3000 ≠ JsNum.inf := by
  refine ⟨?_, ?_, ?_, by simp⟩
  · norm_num [Backtesting.totalLosses, Backtesting.losingTrades,
      Backtesting.closedPositions, cWin]
  · norm_num [Backtesting.totalWins, Backtesting.winningTrades,
      Backtesting.closedPositions, cWin]
  · norm_num [Backtesting.calculateStatistics, Backtesting.totalLosses,
      Backtesting.totalWins, Backtesting.winningTrades, Backtesting.losingTrades,
      Backtesting.closedPositions, cWin]

/-- Claim C4 amended: the +∞ sentinel is the behaviour of the part_007
variant of `calculateStatistics`: when total losses are 0 and total wins
are positive it returns `Infinity`, not a finite number and not a crash. -/
theorem altCalculateStatistics_profitFactor_inf
    (positions : List Backtesting.Position)
    (initialBalance finalBalance : ℚ) (equityCurve : List (ℕ × ℚ))
    (h0 : Backtesting.totalLosses positions = 0)
    (h1 : 0 < Backtesting.totalWins positions) :
    (BacktestingAlt.calculateStatistics positions initialBalance finalBalance
        equityCurve).profit_factor = JsNum.inf := by
  unfold BacktestingAlt.calculateStatistics
  simp [h0, h1]

/-- Witness for the amended C4: the sentinel at a concrete one-trade set. -/
theorem altCalculateStatistics_profitFactor_inf_witness :
    (BacktestingAlt.calculateStatistics [cWin] 100000 103000 []).profit_factor =
      JsNum.inf :=
  altCalculateStatistics_profitFactor_inf [cWin] 100000 103000 []
    (by norm_num [Backtesting.totalLosses, Backtesting.losingTrades,
      Backtesting.closedPositions, cWin])
    (by norm_num [Backtesting.totalWins, Backtesting.winningTrades,
      Backtesting.closedPositions, cWin])

/-- Claim C2 (code bug): on a bar where both exits could trigger for a
long position (low ≤ stop_loss and take_profit ≤ high), the engine's exit
check — the stop-loss block followed by the take-profit block, exactly as
`updateOpenPositions` applies them — first closes at the stop-loss but then
overwrites that close, ending with exit price 115 (the take-profit) and
reason "take_profit" instead of the claimed stop-loss exit at 95. -/
theorem takeProfit_overwrites_stopLoss :
    (barBoth.low ≤ pBoth.stop_loss ∧ pBoth.take_profit ≤ barBoth.high) ∧
    (Backtesting.checkStopLoss pBoth barBoth 100000).reason = some "stop_loss" ∧
    (Backtesting.checkTakeProfit (Backtesting.checkStopLoss pBoth barBoth 100000)
        barBoth 100000).reason = some "take_profit" ∧
    (Backtesting.checkTakeProfit (Backtesting.checkStopLoss pBoth barBoth 100000)
        barBoth 100000).exit_price = some 115 ∧
    (115 : ℚ) ≠ pBoth.stop_loss := by
  refine ⟨⟨?_, ?_⟩, ?_, ?_, ?_, ?_⟩ <;>
    norm_num [Backtesting.checkStopLoss, Backtesting.checkTakeProfit,
      Backtesting.closePosition, pBoth, barBoth]

/-- Claim C3 (code bug): at balance 100000, risk percentage 1, entry 150,
stop 145, the engine's `executePosition` opens a position of size 20000
(it multiplies the balance by the raw percentage, without dividing by
100, and never consults the Risk Manager), while the Risk Manager's
`calculatePositionSize` yields size 200 for the same inputs. -/
theorem executePosition_size_mismatch :
    (Backtesting.executePosition "AAPL" recC3 Backtesting.bar0 100000 (1/100)).map
        (fun p => p.size) = some 20000 ∧
    RiskManagement.calculatePositionSize ⟨100000, 1, 150, 145, 165⟩ =
      .ok ⟨200, 1000, 2000, 3⟩ ∧
    (20000 : ℚ) ≠ 200 := by
  refine ⟨?_, ?_, by norm_num⟩
  · norm_num [Backtesting.executePosition, Backtesting.truthy, recC3,
      Int.floor_eq_iff]
  · simp [RiskManagement.calculatePositionSize, RiskManagement.validateRiskPercentage,
      RiskManagement.MIN_RISK_PERCENTAGE, RiskManagement.MAX_RISK_PERCENTAGE]
    norm_num [Int.floor_eq_iff]

/-- Length of the EMA inner loop output. -/
theorem emaGo_length (k prev : ℚ) (xs : List ℚ) :
    (Indicators.emaGo k prev xs).length = xs.length := by
  induction xs generalizing prev with
  | nil => rfl
  | cons b bs ih => simp [Indicators.emaGo, ih]

/-- Recurrence of the EMA inner loop: element `i + 1` of the seeded output
equals `xs[i] * k + (previous output) * (1 - k)`. -/
theorem emaGo_getD (k : ℚ) (xs : List ℚ) (prev : ℚ) (i : ℕ)
    (h : i < xs.length) :
    (prev :: Indicators.emaGo k prev xs).getD (i + 1) 0 =
      xs.getD i 0 * k + (prev :: Indicators.emaGo k prev xs).getD i 0 * (1 - k) := by
  induction xs generalizing prev i with
  | nil => simp at h
  | cons b bs ih =>
    cases i with
    | zero => simp [Indicators.emaGo]
    | succ m =>
      have hm : m < bs.length := by simpa using h
      simpa [Indicators.emaGo] using ih (b * k + prev * (1 - k)) m hm

/-- Claim C7: for a non-empty price list, `calculateEMA` preserves the
length, its first element is the first price (seeded by the first value,
not an SMA seed), and each later element obeys
`ema[i] = x[i] * k + ema[i-1] * (1 - k)` with `k = 2 / (period + 1)`. -/
theorem calculateEMA_spec (x : List ℚ) (p : ℕ) (h : x ≠ []) :
    (Indicators.calculateEMA x p).length = x.length ∧
    (Indicators.calculateEMA x p).getD 0 0 = x.getD 0 0 ∧
    ∀ i, 0 < i → i < x.length →
      (Indicators.calculateEMA x p).getD i 0 =
        x.getD i 0 * (2 / ((p : ℚ) + 1)) +
          (Indicators.calculateEMA x p).getD (i - 1) 0 * (1 - 2 / ((p : ℚ) + 1)) := by
  match x with
  | [] => exact absurd rfl h
  | a :: xs =>
    refine ⟨by simp [Indicators.calculateEMA, emaGo_length], by simp [Indicators.calculateEMA], ?_⟩
    intro i hi hlen
    obtain ⟨m, rfl⟩ : ∃ m, i = m + 1 := ⟨i - 1, (Nat.succ_pred_eq_of_pos hi).symm⟩
    have hm : m < xs.length := by simpa using hlen
    simpa [Indicators.calculateEMA] using emaGo_getD (2 / ((p : ℚ) + 1)) xs a m hm

/-- Witness for C7 at the list `[1, 2, 3]` and period 1 (so `k = 1`). -/
theorem calculateEMA_spec_witness :
    (Indicators.calculateEMA [1, 2, 3] 1).length = ([1, 2, 3] : List ℚ).length ∧
    (Indicators.calculateEMA [1, 2, 3] 1).getD 0 0 = ([1, 2, 3] : List ℚ).getD 0 0 ∧
    ∀ i, 0 < i → i < ([1, 2, 3] : List ℚ).length →
      (Indicators.calculateEMA [1, 2, 3] 1).getD i 0 =
        ([1, 2, 3] : List ℚ).getD i 0 * (2 / (((1 : ℕ) : ℚ) + 1)) +
          (Indicators.calculateEMA [1, 2, 3] 1).getD (i - 1) 0 *
            (1 - 2 / (((1 : ℕ) : ℚ) + 1)) :=
  calculateEMA_spec [1, 2, 3] 1 (by simp)

/-- Every entry read from the `gains` array is non-negative. -/
theorem gainsOf_getD_nonneg (data : List ℚ) (i : ℕ) :
    0 ≤ (Indicators.gainsOf data).getD i 0 := by
  unfold Indicators.gainsOf
  rw [List.getD_eq_getElem?_getD, List.getElem?_map]
  cases h : (Indicators.changesOf data)[i]? with
  | none => simp
  | some c =>
    simp only [Option.map_some', Option.getD_some]
    split
    · linarith
    · exact le_refl 0

/-- When every loss is zero, every entry read from the `losses` array is
zero. -/
theorem lossesOf_getD_zero (data : List ℚ)
    (hl : ∀ l ∈ Indicators.lossesOf data, l = 0) (i : ℕ) :
    (Indicators.lossesOf data).getD i 0 = 0 := by
  rw [List.getD_eq_getElem?_getD]
  cases h : (Indicators.lossesOf data)[i]? with
  | none => simp
  | some c => simpa using hl c (List.getElem?_mem h)

/-- A window with zero average loss and positive average gain produces the
value 100 (via `Infinity` in the JavaScript division chain). -/
theorem rsiVal_pos_zero (ag : ℚ) (h : 0 < ag) :
    Indicators.rsiVal ag 0 = JsNum.num 100 := by
  simp [Indicators.rsiVal, JsNum.jsDiv, JsNum.jsAdd, JsNum.jsSub, h]

/-- The RSI loop emits 100 for every index while the running average loss
is zero and the running average gain positive — which Wilder smoothing
preserves when all losses are zero and `period ≥ 2`. -/
theorem rsiLoop_all_100 (gains losses : List ℚ) (period : ℕ) (hp : 2 ≤ period)
    (hg : ∀ i, 0 ≤ gains.getD i 0) (hl : ∀ i, losses.getD i 0 = 0) :
    ∀ (idxs : List ℕ) (avgGain avgLoss : ℚ), 0 < avgGain → avgLoss = 0 →
      Indicators.rsiLoop gains losses period avgGain avgLoss idxs =
        List.replicate idxs.length (JsNum.num 100) := by
  intro idxs
  induction idxs with
  | nil => intro ag al _ _; rfl
  | cons i rest ih =>
    intro ag al hag hal
    have hpQ : (0 : ℚ) < period := by exact_mod_cast Nat.lt_of_lt_of_le Nat.zero_lt_two hp
    have hpQ2 : (2 : ℚ) ≤ period := by exact_mod_cast hp
    have hag1 : 0 < (if period < i
        then (ag * ((period : ℚ) - 1) + gains.getD i 0) / period else ag) := by
      split
      · exact div_pos (by nlinarith [hg i]) hpQ
      · exact hag
    have hal1 : (if period < i
        then (al * ((period : ℚ) - 1) + losses.getD i 0) / period else al) = 0 := by
      split
      · rw [hal, hl i]; simp
      · exact hal
    simp only [Indicators.rsiLoop, hal1, List.length_cons, List.replicate_succ]
    rw [rsiVal_pos_zero _ hag1, ih _ _ hag1 rfl]

/-- Claim C8 amended: when every per-bar loss is zero (so every window's
average loss is zero), the seed average gain is positive and `period ≥ 2`,
`calculateRSI` does not raise and every emitted value is 100. -/
theorem calculateRSI_zero_avg_loss (data : List ℚ) (period : ℕ)
    (hp : 2 ≤ period)
    (hl : ∀ l ∈ Indicators.lossesOf data, l = 0)
    (hg : 0 < Indicators.seedAvgGain data period) :
    Indicators.calculateRSI data period =
      List.replicate (data.length - period) (JsNum.num 100) := by
  have hal : Indicators.seedAvgLoss data period = 0 := by
    unfold Indicators.seedAvgLoss
    have hs : (((Indicators.lossesOf data).drop 1).take period).sum = 0 :=
      List.sum_eq_zero fun x hx =>
        hl x (List.mem_of_mem_drop (List.mem_of_mem_take hx))
    rw [hs, zero_div]
  unfold Indicators.calculateRSI
  rw [hal,
    rsiLoop_all_100 (Indicators.gainsOf data) (Indicators.lossesOf data) period hp
      (gainsOf_getD_nonneg data) (lossesOf_getD_zero data hl)
      (List.range' period (data.length - period))
      (Indicators.seedAvgGain data period) 0 hg rfl,
    List.length_range']

/-- Witness for the amended C8: strictly rising prices `[1, 2, 3, 4]` with
period 2 give RSI 100 for both emitted windows. -/
theorem calculateRSI_zero_avg_loss_witness :
    Indicators.calculateRSI [1, 2, 3, 4] 2 =
      List.replicate (([1, 2, 3, 4] : List ℚ).length - 2) (JsNum.num 100) :=
  calculateRSI_zero_avg_loss [1, 2, 3, 4] 2 (by norm_num)
    (by norm_num [Indicators.lossesOf, Indicators.changesOf])
    (by norm_num [Indicators.seedAvgGain, Indicators.gainsOf, Indicators.changesOf])

/-- A flat 15-bar price window. -/
def flat15 : List ℚ :=
  [100, 100, 100, 100, 100, 100, 100, 100, 100, 100, 100, 100, 100, 100, 100]

/-- Counterexample to claim C8 as stated: on a flat window the average
loss is zero but the average gain is zero too, and `calculateRSI` emits
NaN (0/0), not 100. -/
theorem calculateRSI_flat_nan :
    Indicators.seedAvgLoss flat15 14 = 0 ∧
    Indicators.calculateRSI flat15 14 = [JsNum.nan] ∧
    ([JsNum.nan] : List JsNum) ≠ [JsNum.num 100] := by
  refine ⟨?_, ?_, by simp⟩
  · norm_num [Indicators.seedAvgLoss, Indicators.lossesOf, Indicators.changesOf, flat15]
  · norm_num [Indicators.calculateRSI, Indicators.seedAvgLoss, Indicators.seedAvgGain,
      Indicators.lossesOf, Indicators.gainsOf, Indicators.changesOf, flat15,
      List.range', Indicators.rsiLoop, Indicators.rsiVal,
      JsNum.jsDiv, JsNum.jsAdd, JsNum.jsSub]

/-- Spec-side predicate (following the spec's words, weakened to what the
code tests): bar `i` is a pivot high when no other bar of the
`2·lookback+1` centered window has a strictly greater high. -/
def WeakPivotHigh (data : List Indicators.PBar) (i : ℕ) : Prop :=
  ∀ j ∈ Finset.Icc (i - Indicators.lookback) (i + Indicators.lookback), j ≠ i →
    (data.getD j Indicators.pb0).high ≤ (data.getD i Indicators.pb0).high

/-- Spec-side predicate: bar `i` is a pivot low when no other bar of the
centered window has a strictly smaller low. -/
def WeakPivotLow (data : List Indicators.PBar) (i : ℕ) : Prop :=
  ∀ j ∈ Finset.Icc (i - Indicators.lookback) (i + Indicators.lookback), j ≠ i →
    (data.getD i Indicators.pb0).low ≤ (data.getD j Indicators.pb0).low

/-- Spec-side predicate exactly as claim C9 states it: `i`'s high is
strictly the extreme among the centered bars. -/
def StrictPivotHigh (data : List Indicators.PBar) (i : ℕ) : Prop :=
  ∀ j ∈ Finset.Icc (i - Indicators.lookback) (i + Indicators.lookback), j ≠ i →
    (data.getD j Indicators.pb0).high < (data.getD i Indicators.pb0).high

instance (data : List Indicators.PBar) (i : ℕ) : Decidable (WeakPivotHigh data i) := by
  unfold WeakPivotHigh; infer_instance

instance (data : List Indicators.PBar) (i : ℕ) : Decidable (WeakPivotLow data i) := by
  unfold WeakPivotLow; infer_instance

/-- The pivot-high inner loop decides exactly the weak extremality
predicate (for the scanned indices, which satisfy `lookback ≤ i`). -/
theorem isHighPivot_iff (data : List Indicators.PBar) (i : ℕ)
    (h5 : Indicators.lookback ≤ i) :
    Indicators.isHighPivot data i = true ↔ WeakPivotHigh data i := by
  unfold Indicators.isHighPivot WeakPivotHigh
  rw [List.all_eq_true]
  constructor
  · intro hb j hj hj3
    rw [Finset.mem_Icc] at hj
    have hf : i - Indicators.lookback + (j - (i - Indicators.lookback)) = j := by
      unfold Indicators.lookback at *; omega
    have hm := hb (i - Indicators.lookback + (j - (i - Indicators.lookback)))
      (List.mem_map.mpr ⟨j - (i - Indicators.lookback),
        List.mem_range.mpr (by unfold Indicators.lookback at *; omega), rfl⟩)
    rw [hf] at hm
    simp only [Bool.or_eq_true, decide_eq_true_eq, Bool.not_eq_true',
      decide_eq_false_iff_not, not_lt] at hm
    rcases hm with h | h
    · exact absurd h hj3
    · exact h
  · intro hw x hx
    obtain ⟨o, ho, rfl⟩ := List.mem_map.mp hx
    rw [List.mem_range] at ho
    by_cases he : i - Indicators.lookback + o = i
    · simp [he]
    · have hj : i - Indicators.lookback + o ∈
          Finset.Icc (i - Indicators.lookback) (i + Indicators.lookback) := by
        rw [Finset.mem_Icc]
        constructor
        · exact Nat.le_add_right _ _
        · unfold Indicators.lookback at *; omega
      have hle := hw _ hj he
      simp only [List.getD_eq_getElem?_getD] at hle
      simp [he, not_lt.mpr hle]

/-- The pivot-low inner loop decides exactly the weak extremality
predicate. -/
theorem isLowPivot_iff (data : List Indicators.PBar) (i : ℕ)
    (h5 : Indicators.lookback ≤ i) :
    Indicators.isLowPivot data i = true ↔ WeakPivotLow data i := by
  unfold Indicators.isLowPivot WeakPivotLow
  rw [List.all_eq_true]
  constructor
  · intro hb j hj hj3
    rw [Finset.mem_Icc] at hj
    have hf : i - Indicators.lookback + (j - (i - Indicators.lookback)) = j := by
      unfold Indicators.lookback at *; omega
    have hm := hb (i - Indicators.lookback + (j - (i - Indicators.lookback)))
      (List.mem_map.mpr ⟨j - (i - Indicators.lookback),
        List.mem_range.mpr (by unfold Indicators.lookback at *; omega), rfl⟩)
    rw [hf] at hm
    simp only [Bool.or_eq_true, decide_eq_true_eq, Bool.not_eq_true',
      decide_eq_false_iff_not, not_lt] at hm
    rcases hm with h | h
    · exact absurd h hj3
    · exact h
  · intro hw x hx
    obtain ⟨o, ho, rfl⟩ := List.mem_map.mp hx
    rw [List.mem_range] at ho
    by_cases he : i - Indicators.lookback + o = i
    · simp [he]
    · have hj : i - Indicators.lookback + o ∈
          Finset.Icc (i - Indicators.lookback) (i + Indicators.lookback) := by
        rw [Finset.mem_Icc]
        constructor
        · exact Nat.le_add_right _ _
        · unfold Indicators.lookback at *; omega
      have hle := hw _ hj he
      simp only [List.getD_eq_getElem?_getD] at hle
      simp [he, not_lt.mpr hle]

/-- A boolean equals the decision of any proposition it is equivalent to. -/
theorem bool_eq_decide {b : Bool} {p : Prop} [Decidable p]
    (h : b = true ↔ p) : b = decide p := by
  cases b <;> simp_all

/-- Claim C9 amended: `findPivotPoints` reports, in scan order, the price
levels of exactly those centered-window bars that are WEAKLY extremal (no
strictly higher high / strictly lower low elsewhere in the window; ties
count as pivots) — not the strictly-extremal bars of the claim. -/
theorem findPivotPoints_weak_characterisation (data : List Indicators.PBar) :
    (Indicators.findPivotPoints data).1 =
      ((List.range' Indicators.lookback (data.length - 2 * Indicators.lookback)).filter
        (fun i => decide (WeakPivotHigh data i))).map
          (fun i => (data.getD i Indicators.pb0).high) ∧
    (Indicators.findPivotPoints data).2 =
      ((List.range' Indicators.lookback (data.length - 2 * Indicators.lookback)).filter
        (fun i => decide (WeakPivotLow data i))).map
          (fun i => (data.getD i Indicators.pb0).low) := by
  simp only [Indicators.findPivotPoints]
  constructor
  · refine congrArg _ (List.filter_congr fun i hi => ?_)
    exact bool_eq_decide (isHighPivot_iff data i (List.mem_range'_1.mp hi).1)
  · refine congrArg _ (List.filter_congr fun i hi => ?_)
    exact bool_eq_decide (isLowPivot_iff data i (List.mem_range'_1.mp hi).1)

instance (data : List Indicators.PBar) (i : ℕ) : Decidable (StrictPivotHigh data i) := by
  unfold StrictPivotHigh; infer_instance

/-- A 12-bar series with two adjacent equal maximal highs (bars 5 and 6). -/
def data12 : List Indicators.PBar :=
  [⟨1, 1, 1⟩, ⟨1, 1, 1⟩, ⟨1, 1, 1⟩, ⟨1, 1, 1⟩, ⟨1, 1, 1⟩,
   ⟨9, 1, 1⟩, ⟨9, 1, 1⟩,
   ⟨1, 1, 1⟩, ⟨1, 1, 1⟩, ⟨1, 1, 1⟩, ⟨1, 1, 1⟩, ⟨1, 1, 1⟩]

/-- Counterexample to claim C9 as stated: bar 5 of `data12` is reported as
a pivot high (the returned array is `[9, 9]`, listing bars 5 and 6)
although its high is not strictly the extreme of its centered window —
bar 6 has the same high.  The code's test is weak, not strict. -/
theorem findPivotPoints_tie_counterexample :
    (Indicators.findPivotPoints data12).1 = [9, 9] ∧
    Indicators.isHighPivot data12 5 = true ∧
    ¬ StrictPivotHigh data12 5 := by
  refine ⟨by decide, by decide, ?_⟩
  intro h
  have h6 : (6 : ℕ) ∈ Finset.Icc (5 - Indicators.lookback) (5 + Indicators.lookback) := by
    decide
  have := h 6 h6 (by decide)
  norm_num [data12, Indicators.pb0] at this

/-- Warm-up bar (indices 0–59) of the concrete run. -/
def warmBar : Backtesting.Bar := ⟨0, 100, 100, 100, 100, 1000⟩

/-- Final bar (index 60) of the concrete run: closes at 101. -/
def lastBarC1 : Backtesting.Bar := ⟨60, 100, 101, 99, 101, 1000⟩

/-- 61 bars: the minimum to enter the loop exactly once (warm-up offset
60). -/
def barsC1 : List Backtesting.Bar := List.replicate 60 warmBar ++ [lastBarC1]

/-- Oracle: at bar 60 recommend a buy (confidence 80) at entry 100, stop
95, target 115, risk percentage 1; no analysis elsewhere. -/
def oracleC1 : ℕ → Option Backtesting.Analysis := fun j =>
  if j = 60 then some ⟨80, ⟨"buy", some 100, some 95, some 115, some 1⟩⟩ else none

/-- The single trade of the concrete run, force-closed at the end. -/
def tradeC1 : Backtesting.Position :=
  ⟨"AAPL", .long, 100, 95, 115, 20000, 60, some 60, some 101, some 20000,
    some .inf, some "end_of_backtest"⟩

/-- The statistics of the concrete run. -/
def statsC1 : Backtesting.Stats := ⟨1, 1, 0, .num 1, 20000, 0, .num 20000, 0, 0⟩

/-- The full result of the concrete run: the equity curve records balance
100000 although the trade realizes pnl 20000. -/
def resC1 : Backtesting.BacktestResult :=
  ⟨100000, 100000, statsC1, [tradeC1], [(60, 100000)]⟩

/-- Evaluation of the engine on the concrete 61-bar run. -/
theorem runC1_eval :
    Backtesting.runBacktest "AAPL" 0 1 barsC1 100000 (1/100) oracleC1 =
      .ok resC1 := by
  have hbh : ("buy" : String) ≠ "hold" := by decide
  norm_num [hbh, Backtesting.runBacktest, barsC1, oracleC1, Backtesting.stepBar,
    Backtesting.updateOpenPositions, Backtesting.executePosition,
    Backtesting.truthy, Backtesting.calculateCurrentBalance,
    Backtesting.closeAllPositions, Backtesting.closePosition,
    Backtesting.calculateStatistics, Backtesting.closedPositions,
    Backtesting.winningTrades, Backtesting.losingTrades, Backtesting.totalWins,
    Backtesting.totalLosses, Backtesting.drawdownStats, Backtesting.bar0,
    warmBar, lastBarC1, tradeC1, statsC1, resC1, List.range',
    List.getElem?_append_right, List.getD_eq_getElem?_getD,
    Int.floor_eq_iff, JsNum.jsMul, JsNum.jsDiv]

/-- Claim C1 (code bug): on the concrete run the engine opens one trade at
bar 60 and force-closes it at that bar's close with realized pnl 20000,
yet the equity point recorded at that bar's timestamp — and the final
balance — remain 100000: closed positions are spliced out of the array
before `calculateCurrentBalance` ever adds their pnl, so the recorded
balance never equals initial balance plus the realized pnl of the trades
closed at or before the point's timestamp. -/
theorem equity_curve_misses_realized_pnl :
    Backtesting.runBacktest "AAPL" 0 1 barsC1 100000 (1/100) oracleC1 =
      .ok resC1 ∧
    resC1.equity_curve = [(60, 100000)] ∧
    resC1.trades.map (fun p => (p.pnl, p.exit_time)) = [(some 20000, some 60)] ∧
    resC1.initial_balance + 20000 ≠ 100000 :=
  ⟨runC1_eval, by simp [resC1, tradeC1], by simp [resC1, tradeC1],
    by norm_num [resC1]⟩

/-- Positions surviving `updateOpenPositions` have no exit time (the
splice keeps exactly those). -/
theorem updateOpenPositions_exit_time (positions : List Backtesting.Position)
    (bar : Backtesting.Bar) (balance : ℚ) :
    ∀ p ∈ Backtesting.updateOpenPositions positions bar balance,
      p.exit_time = none := by
  intro p hp
  unfold Backtesting.updateOpenPositions at hp
  have h2 := (List.mem_filter.mp hp).2
  simpa [Option.isNone_iff_eq_none] using h2

/-- A position returned by `executePosition` has no exit time. -/
theorem executePosition_exit_time (symbol : String)
    (analysis : Backtesting.Analysis) (bar : Backtesting.Bar)
    (balance riskPerTrade : ℚ) (p : Backtesting.Position)
    (h : Backtesting.executePosition symbol analysis bar balance riskPerTrade =
      some p) : p.exit_time = none := by
  simp only [Backtesting.executePosition] at h
  split at h
  · obtain rfl := Option.some.inj h
    rfl
  · exact absurd h (by simp)

/-- Every position held after one loop iteration has no exit time. -/
theorem stepBar_exit_time (symbol : String) (riskPerTrade : ℚ)
    (bars : List Backtesting.Bar) (oracle : ℕ → Option Backtesting.Analysis)
    (st : Backtesting.SimState) (j : ℕ) :
    ∀ p ∈ (Backtesting.stepBar symbol riskPerTrade bars oracle st j).positions,
      p.exit_time = none := by
  intro p hp
  simp only [Backtesting.stepBar] at hp
  rcases ho : oracle j with _ | analysis <;> simp only [ho] at hp
  · exact updateOpenPositions_exit_time _ _ _ p hp
  · split at hp
    · rcases he : Backtesting.executePosition symbol analysis
          (bars.getD j Backtesting.bar0) st.balance riskPerTrade with _ | pos <;>
        simp only [he] at hp
      · exact updateOpenPositions_exit_time _ _ _ p hp
      · rcases List.mem_append.mp hp with h1 | h1
        · exact updateOpenPositions_exit_time _ _ _ p h1
        · obtain rfl := List.mem_singleton.mp h1
          exact executePosition_exit_time _ _ _ _ _ _ he
    · exact updateOpenPositions_exit_time _ _ _ p hp

/-- The bar loop preserves the no-exit-time invariant of the open set. -/
theorem foldl_stepBar_exit_time (symbol : String) (riskPerTrade : ℚ)
    (bars : List Backtesting.Bar) (oracle : ℕ → Option Backtesting.Analysis) :
    ∀ (idxs : List ℕ) (st : Backtesting.SimState),
      (∀ p ∈ st.positions, p.exit_time = none) →
      ∀ p ∈ (idxs.foldl (Backtesting.stepBar symbol riskPerTrade bars oracle)
          st).positions, p.exit_time = none := by
  intro idxs
  induction idxs with
  | nil => intro st hst; exact hst
  | cons j rest ih =>
    intro st hst
    rw [List.foldl_cons]
    exact ih _ (stepBar_exit_time symbol riskPerTrade bars oracle st j)

/-- Force-closing a set of still-open positions stamps every one of them
with reason `end_of_backtest`. -/
theorem closeAllPositions_reason (positions : List Backtesting.Position)
    (lastBar : Backtesting.Bar)
    (h : ∀ p ∈ positions, p.exit_time = none) :
    ∀ p ∈ Backtesting.closeAllPositions positions lastBar,
      p.reason = some "end_of_backtest" := by
  intro p hp
  unfold Backtesting.closeAllPositions at hp
  obtain ⟨q, hq, rfl⟩ := List.mem_map.mp hp
  rw [if_pos (by simp [h q hq])]
  rfl

/-- Claim C10: in every successful run, every trade of the returned
result carries reason `end_of_backtest` — positions closed by a stop-loss
or take-profit exit were spliced out of the array mid-run and are
retained nowhere — and the returned statistics are derived from exactly
that trades list. -/
theorem runBacktest_trades_end_of_backtest (symbol : String)
    (startDate endDate : ℕ) (bars : List Backtesting.Bar)
    (initialBalance riskPerTrade : ℚ)
    (oracle : ℕ → Option Backtesting.Analysis)
    (res : Backtesting.BacktestResult)
    (h : Backtesting.runBacktest symbol startDate endDate bars initialBalance
        riskPerTrade oracle = Except.ok res) :
    (∀ p ∈ res.trades, p.reason = some "end_of_backtest") ∧
    res.stats = Backtesting.calculateStatistics res.trades initialBalance
      res.final_balance res.equity_curve := by
  unfold Backtesting.runBacktest at h
  split at h
  · exact absurd h (by simp)
  · split at h
    · exact absurd h (by simp)
    · simp only [Except.ok.injEq] at h
      subst h
      refine ⟨?_, rfl⟩
      exact closeAllPositions_reason _ _
        (foldl_stepBar_exit_time symbol riskPerTrade bars oracle _ _ (by simp))

/-- Witness for C10: the concrete run's single trade indeed carries
reason `end_of_backtest`. -/
theorem runBacktest_trades_end_of_backtest_witness :
    tradeC1.reason = some "end_of_backtest" :=
  (runBacktest_trades_end_of_backtest "AAPL" 0 1 barsC1 100000 (1/100)
    oracleC1 resC1 runC1_eval).1 tradeC1 (by simp [resC1])
